import Mathlib

/-!
Shallow embedding of the authentication core of the `nextjs-django-boilerplate`
server: the OTP device state machine (`two_factor/models.py`), the trusted-device
registry, the IP blocking pipeline (`utils/blocked_ip.py`,
`app/middlewares.py`) and the login / 2FA orchestration
(`users/views.py`, `two_factor/views.py`).

Conventions:
* timestamps and durations are rationals measured in seconds (Django datetimes
  have sub-second resolution, and cooldowns are float-valued);
* random draws (`secrets.choice` codes, `random.randint` jitter and lock
  durations) are passed in as explicit parameters;
* the Fernet cipher is an explicit `Cipher` parameter;
* Django ORM `save(update_fields=...)` persistence is modelled by only
  copying the listed fields into the stored record where this matters
  (`TrustedDevice.renew`).
-/

namespace Server

/-- The Fernet cipher collaborator (`AdvancedOTPDevice._get_cipher`):
`encrypt` always succeeds, `decrypt` may fail. -/
structure Cipher where
  encrypt : String → String
  decrypt : String → Option String

/-- A cipher for which decryption inverts encryption, as Fernet guarantees. -/
def Cipher.Roundtrip (c : Cipher) : Prop :=
  ∀ s, c.decrypt (c.encrypt s) = some s

/-- The identity cipher: a concrete `Cipher` satisfying `Roundtrip`. -/
def idCipher : Cipher := ⟨fun s => s, fun s => some s⟩

/-- The persisted state of `AdvancedOTPDevice` (two_factor/models.py).
`otp_encrypted` is `none` for NULL; Python truthiness also treats the empty
string as absent, which `otpPresent` reflects. -/
structure AdvancedOTPDevice where
  otp_encrypted : Option String := none
  otp_created_at : Option ℚ := none
  otp_expiry : Option ℚ := none
  used : Bool := false
  failed_attempts : ℕ := 0
  max_failed_attempts : ℕ := 5
  last_request_time : Option ℚ := none
  next_allowed_request_time : Option ℚ := none
  cooldown_multiplier : ℚ := 2
  lock_until : Option ℚ := none
  deriving Repr, DecidableEq

namespace AdvancedOTPDevice

/-- Python truthiness of the `otp_encrypted` field (`if not self.otp_encrypted`). -/
def otpPresent (d : AdvancedOTPDevice) : Bool :=
  match d.otp_encrypted with
  | none => false
  | some s => s ≠ ""

/-- `self.lock_until and now < self.lock_until`. -/
def lockActive (d : AdvancedOTPDevice) (now : ℚ) : Bool :=
  match d.lock_until with
  | none => false
  | some t => now < t

/-- `self.next_allowed_request_time and now < self.next_allowed_request_time`. -/
def rateLimited (d : AdvancedOTPDevice) (now : ℚ) : Bool :=
  match d.next_allowed_request_time with
  | none => false
  | some t => now < t

/-- `self.lock_until and now >= self.lock_until` (the auto-unlock condition in
`generate_token`). -/
def lockExpired (d : AdvancedOTPDevice) (now : ℚ) : Bool :=
  match d.lock_until with
  | none => false
  | some t => t ≤ now

/-- `self.otp_expiry and now > self.otp_expiry`. -/
def otpExpired (d : AdvancedOTPDevice) (now : ℚ) : Bool :=
  match d.otp_expiry with
  | none => false
  | some e => e < now

/-- Outcome kinds of `verify_token`, one per `return` site, named with the
spec's error taxonomy (§4.2 / §7). -/
inductive VerifyOutcome where
  | LOCKED        -- active lock, or the mismatch that triggers a fresh lock
  | INVALID       -- no code outstanding, or a mismatch below the lock threshold
  | EXPIRED
  | ALREADY_USED
  | INTERNAL      -- decryption failure
  | SUCCESS
  deriving Repr, DecidableEq

/-- `AdvancedOTPDevice.verify_token(self, token)`.  `randLockTime` is the
`random.randint(5*60, 10*60)` draw used only when a new lock is set.
Returns the outcome together with the saved device state. -/
def verify_token (cipher : Cipher) (d : AdvancedOTPDevice) (now : ℚ)
    (randLockTime : ℕ) (token : String) : VerifyOutcome × AdvancedOTPDevice :=
  -- 1: locked out
  if d.lockActive now then (.LOCKED, d)
  -- 2: ensure an OTP was generated
  else if ¬ d.otpPresent then (.INVALID, d)
  else
    match d.otp_encrypted with
    | none => (.INVALID, d)  -- unreachable given otpPresent
    | some ct =>
      -- 3: expired
      if d.otpExpired now then (.EXPIRED, d)
      -- 4: already used
      else if d.used then (.ALREADY_USED, d)
      else
        -- 5: decrypt
        match cipher.decrypt ct with
        | none => (.INTERNAL, d)
        | some decrypted_otp =>
          if decrypted_otp ≠ token then
            let fa := d.failed_attempts + 1
            if fa ≥ d.max_failed_attempts then
              (.LOCKED,
               { d with failed_attempts := fa,
                        lock_until := some (now + randLockTime) })
            else
              (.INVALID, { d with failed_attempts := fa })
          else
            (.SUCCESS,
             { d with used := true, failed_attempts := 0,
                      lock_until := none, otp_encrypted := none })

/-- Outcome kinds of `generate_token` (§4.1): rejection with HTTP 429, with
HTTP 423, or success carrying the plaintext code. -/
inductive GenerateOutcome where
  | RATE_LIMITED
  | LOCKED
  | SUCCESS (code : String)
  deriving Repr, DecidableEq

/-- `AdvancedOTPDevice.generate_token`.  `code` stands for the
`secrets.choice(string.digits)` draw and `jitter` for
`random.randint(min_wait, max_wait)`; both are random inputs made explicit.
Default arguments in the source: `valid_for_seconds=300`, `base_cooldown=60`,
`random_wait_range=(5, 15)`. -/
def generate_token (cipher : Cipher) (d : AdvancedOTPDevice) (now : ℚ)
    (code : String) (jitter : ℕ) (valid_for_seconds : ℚ := 300)
    (base_cooldown : ℚ := 60) (min_wait : ℕ := 5) (max_wait : ℕ := 15) :
    GenerateOutcome × AdvancedOTPDevice :=
  -- 1: rate limiting
  if d.rateLimited now then (.RATE_LIMITED, d)
  else
    -- 2: auto-unlock if the lock period has expired
    let d :=
      if d.lockExpired now then
        { d with lock_until := none, failed_attempts := 0 }
      else d
    -- 3: still locked
    if d.lockActive now then (.LOCKED, d)
    else
      -- 4/5: generate, encrypt, set metadata; cooldown computed from the
      -- failed-attempt count read before the reset
      let cooldown_seconds := base_cooldown * d.cooldown_multiplier ^ d.failed_attempts
      let random_offset : ℕ := if min_wait < max_wait then jitter else 0
      (.SUCCESS code,
       { d with otp_encrypted := some (cipher.encrypt code),
                otp_created_at := some now,
                otp_expiry := some (now + valid_for_seconds),
                used := false,
                failed_attempts := 0,
                last_request_time := some now,
                next_allowed_request_time :=
                  some (now + cooldown_seconds + random_offset) })

end AdvancedOTPDevice

/-! ## IP reputation store, attempt counter and middleware
(`utils/blocked_ip.py`, `misc/models.py`, `app/middlewares.py`)

The Redis cache is modelled as association lists keyed by IP, each entry
carrying its absolute expiry time; an entry is visible only while
`now < expiry` (an expired Redis key behaves as absent).  `cache.incr`
preserves the existing TTL; `cache.set` replaces the entry and its TTL. -/

/-- `MAX_ATTEMPTS` in `utils/blocked_ip.py`. -/
def MAX_ATTEMPTS : ℕ := 5

/-- `REDIS_EXPIRE_SECONDS = 60 * 15` in `utils/blocked_ip.py`. -/
def REDIS_EXPIRE_SECONDS : ℚ := 60 * 15

/-- Cache TTL (seconds) used for `blocked_ip:` entries (`timeout=300`). -/
def BLOCK_CACHE_TTL : ℚ := 300

/-- The durable store and both cache keyspaces touched by the IP pipeline:
`db` holds the `BlockedIP` rows as `(blocked_ip, is_blocked)` (the
`blocked_ip` column is unique), `blockCache` the `blocked_ip:<ip>` cache
entries as `(ip, value, expiry)`, and `loginAttempts` the
`login_attempts:<ip>` counters as `(ip, count, expiry)`. -/
structure SysState where
  db : List (String × Bool) := []
  blockCache : List (String × Bool × ℚ) := []
  loginAttempts : List (String × ℕ × ℚ) := []
  deriving Repr, DecidableEq

namespace SysState

/-- `cache.get(f"blocked_ip:{...}")`: the cached value, if present and live. -/
def cacheGetBlocked (s : SysState) (ip : String) (now : ℚ) : Option Bool :=
  match s.blockCache.find? (fun e => e.1 = ip) with
  | some e => if now < e.2.2 then some e.2.1 else none
  | none => none

/-- `cache.set(f"blocked_ip:{...}", v, timeout=300)`. -/
def cacheSetBlocked (s : SysState) (ip : String) (v : Bool) (now : ℚ) : SysState :=
  { s with blockCache :=
      (ip, v, now + BLOCK_CACHE_TTL) :: s.blockCache.filter (fun e => e.1 ≠ ip) }

/-- `BlockedIP.objects.filter(blocked_ip=ip, is_blocked=True).exists()`. -/
def dbBlockExists (s : SysState) (ip : String) : Bool :=
  s.db.any (fun r => r.1 = ip ∧ r.2 = true)

/-- `is_ip_in_db_blocklist(ip)`: cache first, then the database, caching the
result (positive or negative) for 5 minutes. -/
def is_ip_in_db_blocklist (s : SysState) (ip : String) (now : ℚ) :
    Bool × SysState :=
  match s.cacheGetBlocked ip now with
  | some b => (b, s)
  | none =>
    let is_blocked := s.dbBlockExists ip
    (is_blocked, s.cacheSetBlocked ip is_blocked now)

/-- `increment_attempts_in_redis(ip)`: `cache.incr` on a live key (keeping its
TTL); on a missing or expired key, initialize to 1 with a 15-minute TTL. -/
def increment_attempts_in_redis (s : SysState) (ip : String) (now : ℚ) :
    ℕ × SysState :=
  match s.loginAttempts.find? (fun e => e.1 = ip) with
  | some e =>
    if now < e.2.2 then
      (e.2.1 + 1,
       { s with loginAttempts :=
           (ip, e.2.1 + 1, e.2.2) :: s.loginAttempts.filter (fun x => x.1 ≠ ip) })
    else
      (1, { s with loginAttempts :=
              (ip, 1, now + REDIS_EXPIRE_SECONDS)
                :: s.loginAttempts.filter (fun x => x.1 ≠ ip) })
  | none =>
    (1, { s with loginAttempts :=
            (ip, 1, now + REDIS_EXPIRE_SECONDS)
              :: s.loginAttempts.filter (fun x => x.1 ≠ ip) })

/-- `reset_attempts_in_redis(ip)`: `cache.delete`. -/
def reset_attempts_in_redis (s : SysState) (ip : String) : SysState :=
  { s with loginAttempts := s.loginAttempts.filter (fun x => x.1 ≠ ip) }

/-- `permanently_block_ip(ip)`: `get_or_create` the `BlockedIP` row (re-flagging
an existing unblocked row), cache positively, clear the attempt counter. -/
def permanently_block_ip (s : SysState) (ip : String) (now : ℚ) : SysState :=
  let db' :=
    match s.db.find? (fun r => r.1 = ip) with
    | none => (ip, true) :: s.db
    | some _ => s.db.map (fun r => if r.1 = ip ∧ r.2 = false then (r.1, true) else r)
  (({ s with db := db' }).cacheSetBlocked ip true now).reset_attempts_in_redis ip

end SysState

/-- The three ways `block_ip(request)` can come out: a 400 response (no
detectable IP), a 403 response, or `None` (the view may proceed). -/
inductive BlockIpOutcome where
  | BAD_REQUEST
  | FORBIDDEN
  | PROCEED
  deriving Repr, DecidableEq

/-- `block_ip(request)` (utils/blocked_ip.py), with the client IP resolution
(`get_client_ip_only`) made an explicit `Option String` input. -/
def block_ip (s : SysState) (request_ip : Option String) (now : ℚ) :
    BlockIpOutcome × SysState :=
  match request_ip with
  | none => (.BAD_REQUEST, s)
  | some ip =>
    let r := s.is_ip_in_db_blocklist ip now
    if r.1 then (.FORBIDDEN, r.2)
    else
      let a := r.2.increment_attempts_in_redis ip now
      if a.1 ≥ MAX_ATTEMPTS then
        (.FORBIDDEN, a.2.permanently_block_ip ip now)
      else (.PROCEED, a.2)

/-- `IPBlockMiddleware.process_request` (app/middlewares.py): `debug` is
`settings.DEBUG`. -/
def process_request (s : SysState) (debug : Bool) (request_ip : Option String)
    (now : ℚ) : BlockIpOutcome × SysState :=
  match request_ip with
  | none => if debug then (.PROCEED, s) else (.BAD_REQUEST, s)
  | some ip =>
    let r := s.is_ip_in_db_blocklist ip now
    if r.1 then (.FORBIDDEN, r.2) else (.PROCEED, r.2)

/-! ## Trusted devices and users -/

/-- A stored `TrustedDevice` row (two_factor/models.py).  `device_id` is
globally unique. -/
structure TrustedDevice where
  userId : ℕ
  device_id : String
  browser : String
  os : String
  device : String
  ip_address : Option String := none
  city : Option String := none
  country : Option String := none
  last_login : ℚ
  expires_at : ℚ
  is_active : Bool := true
  deriving Repr, DecidableEq

/-- `TrustedDevice._meta.get_field("max_sessions").default`. -/
def MAX_SESSIONS : ℕ := 5

/-- Seconds in `timezone.timedelta(days=30)`, the default trusted-device
lifetime. -/
def THIRTY_DAYS : ℚ := 30 * 86400

namespace TrustedDevice

/-- `is_expired`: `timezone.now() > self.expires_at`. -/
def is_expired (d : TrustedDevice) (now : ℚ) : Bool := now > d.expires_at

/-- The `order_by("last_login")` comparison. -/
def byLastLogin (a b : TrustedDevice) : Prop := a.last_login ≤ b.last_login

instance : DecidableRel byLastLogin := fun a b =>
  inferInstanceAs (Decidable (a.last_login ≤ b.last_login))

instance : IsTotal TrustedDevice byLastLogin :=
  ⟨fun a b => le_total a.last_login b.last_login⟩

instance : IsTrans TrustedDevice byLastLogin := ⟨fun _ _ _ => le_trans⟩

/-- `cls.objects.filter(user=user, is_active=True)`. -/
def activeDevices (uid : ℕ) (devices : List TrustedDevice) : List TrustedDevice :=
  devices.filter (fun d => d.userId = uid ∧ d.is_active = true)

/-- `TrustedDevice.enforce_session_limits(user)`: if the number of active
devices exceeds the class default of `max_sessions`, delete the
oldest-by-`last_login` records down to the limit.  The store is a list of all
rows; `order_by("last_login")` is modelled by a (stable) insertion sort. -/
def enforce_session_limits (uid : ℕ) (devices : List TrustedDevice) :
    List TrustedDevice :=
  let active := activeDevices uid devices
  if active.length > MAX_SESSIONS then
    let excess_count := active.length - MAX_SESSIONS
    let devices_to_remove_ids :=
      ((List.insertionSort byLastLogin active).take excess_count).map
        (fun d => d.device_id)
    devices.filter (fun d => d.device_id ∉ devices_to_remove_ids)
  else devices

end TrustedDevice

/-- The fields of the custom `User` model (users/models.py) that the login and
2FA flows read or write. -/
structure User where
  id : ℕ
  email : String
  username : String
  avatar : Option String := none
  is_active : Bool := true
  has_changed_password : Bool := true
  last_login : Option ℚ := none
  deriving Repr, DecidableEq

/-- The `{browser, os, device}` labels produced by `parse_user_agent`. -/
structure UAInfo where
  browser : String
  os : String
  device : String
  deriving Repr, DecidableEq

/-! ## Views (users/views.py `Login.post`, two_factor/views.py `Verify2Fa.post`,
utils/generate_otp.py `otp_generator`) -/

/-- Combined application state threaded through the views: the IP pipeline
state, the per-user `AdvancedOTPDevice` rows (keyed by user id; each user has
at most the one `email_otp_device`), the `TrustedDevice` rows, and the user
rows. -/
structure AppState where
  sys : SysState := {}
  otpDevices : List (ℕ × AdvancedOTPDevice) := []
  trusted : List TrustedDevice := []
  users : List User := []
  deriving Repr, DecidableEq

/-- The body of the successful session responses (`Login.post` trusted-bypass
and `Verify2Fa.post`).  A field of type `Option` records whether the
corresponding key is present in the JSON payload at all: the bypass response
carries `otp_required: false` and no `trusted_device_id` key, while the 2FA
response carries `trusted_device_id` and no `otp_required` key. -/
structure AuthResponse where
  user_id : ℕ
  email : String
  username : String
  avatar : Option String
  access_token : String
  refresh_token : String
  otp_required : Option Bool
  trusted_device_id : Option String
  deriving Repr, DecidableEq

/-- Outcome of `otp_generator(user)`: the forwarded `generate_token` error
(429 rate-limited / 423 locked), or the 200 response acknowledging the email. -/
inductive OtpGenResponse where
  | ERROR (kind : AdvancedOTPDevice.GenerateOutcome)
  | OTP_SENT (email : String)
  deriving Repr, DecidableEq

/-- `otp_generator(user)` (utils/generate_otp.py): `get_or_create` the user's
`email_otp_device`, call `generate_token` with its defaults, forward errors,
otherwise acknowledge.  `code` and `jitter` are the random draws inside
`generate_token`. -/
def otp_generator (cipher : Cipher) (st : AppState) (user : User) (now : ℚ)
    (code : String) (jitter : ℕ) : OtpGenResponse × AppState :=
  let device : AdvancedOTPDevice :=
    match st.otpDevices.find? (fun e => e.1 = user.id) with
    | some e => e.2
    | none => {}
  let r := device.generate_token cipher now code jitter
  let st := { st with otpDevices :=
      (user.id, r.2) :: st.otpDevices.filter (fun e => e.1 ≠ user.id) }
  match r.1 with
  | .RATE_LIMITED => (.ERROR .RATE_LIMITED, st)
  | .LOCKED => (.ERROR .LOCKED, st)
  | .SUCCESS _ => (.OTP_SENT user.email, st)

/-- The terminal outcomes of one login request (middleware and `Login.post`). -/
inductive LoginOutcome where
  | FORBIDDEN_IP                           -- middleware 403
  | BAD_REQUEST_IP                         -- middleware 400 (production, no IP)
  | UNAUTHORIZED                           -- 401, bad credentials
  | CHANGE_PASSWORD_REQUIRED (email : String)
  | SUSPENDED                              -- 403, inactive account
  | TRUSTED_BYPASS (resp : AuthResponse)
  | OTP_FLOW (r : OtpGenResponse)
  deriving Repr, DecidableEq

set_option linter.unusedVariables false in
/-- One full login request: `IPBlockMiddleware.process_request` followed by
`Login.post` (users/views.py).  `auth` is the result of
`authenticate(request, email=email, password=password)`;
`cookie_device_id` is `request.COOKIES.get("trusted_device")`;
`access_token`/`refresh_token` stand for `RefreshToken.for_user(user)`.

On a trusted-device hit the view assigns new metadata
(browser/os/device/ip/city/country) to the in-memory instance and then calls
`renew()`, which executes `save(update_fields=["expires_at"])` — so the only
field change that reaches the store is the renewed `expires_at` (Django
writes, and runs `auto_now` `pre_save`, only for the listed fields); in
particular the parsed user-agent `ua` ends up unused. -/
def login_post (cipher : Cipher) (st : AppState) (debug : Bool)
    (request_ip : Option String) (auth : Option User)
    (cookie_device_id : Option String) (ua : UAInfo) (now : ℚ)
    (code : String) (jitter : ℕ) (access_token refresh_token : String) :
    LoginOutcome × AppState :=
  match process_request st.sys debug request_ip now with
  | (.FORBIDDEN, sys) => (.FORBIDDEN_IP, { st with sys := sys })
  | (.BAD_REQUEST, sys) => (.BAD_REQUEST_IP, { st with sys := sys })
  | (.PROCEED, sys) =>
    let st := { st with sys := sys }
    match auth with
    | none =>
      -- failed login: `block_ip(request)` runs but its response is discarded
      let b := block_ip st.sys request_ip now
      (.UNAUTHORIZED, { st with sys := b.2 })
    | some user =>
      if user.has_changed_password = false then
        (.CHANGE_PASSWORD_REQUIRED user.email, st)
      else if user.is_active = false then
        let b := block_ip st.sys request_ip now
        (.SUSPENDED, { st with sys := b.2 })
      else
        let found : Option TrustedDevice :=
          match cookie_device_id with
          | none => none
          | some device_id =>
            st.trusted.find? (fun d =>
              d.userId = user.id ∧ d.device_id = device_id ∧ d.is_active = true)
        match found with
        | some td =>
          if td.is_expired now then
            let st := { st with trusted :=
                st.trusted.filter (fun d => d.device_id ≠ td.device_id) }
            let r := otp_generator cipher st user now code jitter
            (.OTP_FLOW r.1, r.2)
          else
            let st := { st with
              trusted := st.trusted.map (fun d =>
                if d.device_id = td.device_id then
                  { d with expires_at := now + THIRTY_DAYS }
                else d),
              users := st.users.map (fun u =>
                if u.id = user.id then { u with last_login := some now } else u) }
            (.TRUSTED_BYPASS
              { user_id := user.id, email := user.email,
                username := user.username, avatar := user.avatar,
                access_token := access_token, refresh_token := refresh_token,
                otp_required := some false, trusted_device_id := none }, st)
        | none =>
          let r := otp_generator cipher st user now code jitter
          (.OTP_FLOW r.1, r.2)

/-- Outcomes of `Verify2Fa.post`: the 400 responses (device missing, or
`verify_token` error) and the 200 session response. -/
inductive Verify2FAOutcome where
  | DEVICE_NOT_FOUND
  | VERIFY_FAILED (kind : AdvancedOTPDevice.VerifyOutcome)
  | OK (resp : AuthResponse)
  deriving Repr, DecidableEq

/-- `Verify2Fa.post` (two_factor/views.py).  The device is looked up through
the submitted email (`get(user__email=email, name="email_otp_device")`),
modelled by the keyed lookup on the authenticated user's id; `new_device_id`
is the `secrets.token_urlsafe(32)` draw, `randLockTime` the lock-duration draw
inside `verify_token`. -/
def verify2fa_post (cipher : Cipher) (st : AppState) (user : User) (now : ℚ)
    (randLockTime : ℕ) (code : String) (new_device_id : String) (ua : UAInfo)
    (request_ip : Option String) (access_token refresh_token : String) :
    Verify2FAOutcome × AppState :=
  match st.otpDevices.find? (fun e => e.1 = user.id) with
  | none => (.DEVICE_NOT_FOUND, st)
  | some e =>
    let r := e.2.verify_token cipher now randLockTime code
    let st := { st with otpDevices :=
        (user.id, r.2) :: st.otpDevices.filter (fun x => x.1 ≠ user.id) }
    match r.1 with
    | .SUCCESS =>
      let trusted₁ := TrustedDevice.enforce_session_limits user.id st.trusted
      let newDev : TrustedDevice :=
        { userId := user.id, device_id := new_device_id,
          browser := ua.browser, os := ua.os, device := ua.device,
          ip_address := request_ip, city := none, country := none,
          last_login := now, expires_at := now + THIRTY_DAYS,
          is_active := true }
      let st := { st with
        trusted := trusted₁ ++ [newDev],
        users := st.users.map (fun u =>
          if u.id = user.id then { u with last_login := some now } else u) }
      (.OK { user_id := user.id, email := user.email,
             username := user.username, avatar := user.avatar,
             access_token := access_token, refresh_token := refresh_token,
             otp_required := none, trusted_device_id := some new_device_id },
       st)
    | k => (.VERIFY_FAILED k, st)

/-! ## Concrete fixtures used by counterexamples and witnesses -/

/-- A generic active user. -/
def exUser : User := { id := 1, email := "user@example.com", username := "user" }

/-- A generic parsed user agent. -/
def exUA : UAInfo := { browser := "Chrome", os := "Linux", device := "PC" }

/-- An active trusted device numbered `n`, last logged in at time `n`. -/
def exDevice (n : ℕ) : TrustedDevice :=
  { userId := 1, device_id := toString n, browser := "Firefox", os := "macOS",
    device := "Mac", last_login := (n : ℚ), expires_at := 10000000,
    is_active := true }

/-- An OTP device holding a fresh (identity-encrypted) code `123456` valid
until `t = 100`. -/
def exOtp : AdvancedOTPDevice :=
  { otp_encrypted := some "123456", otp_expiry := some 100 }

/-- `exOtp` after four failed attempts. -/
def exOtp4 : AdvancedOTPDevice := { exOtp with failed_attempts := 4 }

/-- A wrong-password login request (failed authentication) from IP `9.9.9.9`
at time `t`, in production mode. -/
def exWrongLogin (st : AppState) (t : ℚ) : LoginOutcome × AppState :=
  login_post idCipher st false (some "9.9.9.9") none none exUA t "123456" 7
    "atk" "rtk"

/-- The state after `n` successive wrong-password logins from `9.9.9.9` at
times `0, 1, 2, …` against a fresh state. -/
def exTrace : ℕ → AppState
  | 0 => {}
  | n + 1 => (exWrongLogin (exTrace n) (n : ℚ)).2

/-- A trusted device registered before a bypass login, with stale metadata. -/
def exOldDevice : TrustedDevice :=
  { userId := 1, device_id := "cookie-1", browser := "OldBrowser",
    os := "OldOS", device := "OldDevice", ip_address := some "1.1.1.1",
    last_login := 10, expires_at := 10000000, is_active := true }

/-- An application state holding `exOldDevice` and `exUser`. -/
def exBypassState : AppState := { trusted := [exOldDevice], users := [exUser] }

/-- A device locked until `t = 2000`. -/
def exLocked : AdvancedOTPDevice := { lock_until := some 2000 }

/-! # Theorems -/

theorem idCipher_roundtrip : idCipher.Roundtrip := fun _ => rfl

namespace AdvancedOTPDevice

/-- While a lock is active, `verify_token` rejects and leaves the device
state untouched. -/
theorem verify_token_locked (cipher : Cipher) (d : AdvancedOTPDevice)
    (now : ℚ) (rlt : ℕ) (token : String) (h : d.lockActive now = true) :
    d.verify_token cipher now rlt token = (.LOCKED, d) := by
  simp [verify_token, h]

/-- The shape of `verify_token` on a decrypt-compare mismatch. -/
theorem verify_token_mismatch (cipher : Cipher) (d : AdvancedOTPDevice)
    (now : ℚ) (rlt : ℕ) (token ct plain : String)
    (hlock : d.lockActive now = false)
    (hct : d.otp_encrypted = some ct) (hne : ¬ ct = "")
    (hexp : d.otpExpired now = false)
    (hused : d.used = false)
    (hdec : cipher.decrypt ct = some plain)
    (hmm : ¬ plain = token) :
    d.verify_token cipher now rlt token =
      if d.failed_attempts + 1 ≥ d.max_failed_attempts then
        (.LOCKED, { d with failed_attempts := d.failed_attempts + 1,
                           lock_until := some (now + (rlt : ℚ)) })
      else
        (.INVALID, { d with failed_attempts := d.failed_attempts + 1 }) := by
  simp [verify_token, hlock, otpPresent, hct, hne, hexp, hused, hdec, hmm]

/-- `verify_token` succeeds only by marking the code used, clearing the
ciphertext and the lock, and resetting the failed-attempt count. -/
theorem verify_token_success_state (cipher : Cipher) (d : AdvancedOTPDevice)
    (now : ℚ) (rlt : ℕ) (token : String)
    (h : (d.verify_token cipher now rlt token).1 = .SUCCESS) :
    (d.verify_token cipher now rlt token).2 =
      { d with used := true, failed_attempts := 0, lock_until := none,
               otp_encrypted := none } := by
  cases hl : d.lockActive now with
  | true => simp [verify_token, hl] at h
  | false =>
    rcases hc : d.otp_encrypted with _ | ct
    · simp [verify_token, hl, otpPresent, hc] at h
    · by_cases hne : ct = ""
      · simp [verify_token, hl, otpPresent, hc, hne] at h
      · cases hex : d.otpExpired now with
        | true => simp [verify_token, hl, otpPresent, hc, hne, hex] at h
        | false =>
          cases hu : d.used with
          | true => simp [verify_token, hl, otpPresent, hc, hne, hex, hu] at h
          | false =>
            rcases hdec : cipher.decrypt ct with _ | plain
            · simp [verify_token, hl, otpPresent, hc, hne, hex, hu, hdec] at h
            · by_cases hpt : plain = token
              · simp [verify_token, hl, otpPresent, hc, hne, hex, hu, hdec, hpt]
              · by_cases hth : d.failed_attempts + 1 ≥ d.max_failed_attempts
                · simp [verify_token, hl, otpPresent, hc, hne, hex, hu, hdec,
                        hpt, hth] at h
                · simp [verify_token, hl, otpPresent, hc, hne, hex, hu, hdec,
                        hpt, hth] at h

end AdvancedOTPDevice

open AdvancedOTPDevice in
/-- C4: a generation call that passes the rate-limit and lock checks persists
`next_allowed_request_time = now + base_cooldown * cooldown_multiplier ^ f + j`
where `f` is the failed-attempt count read before this call resets it to 0 and
`j` is the jitter drawn from the configured range (default 5–15 s); with
`f = 3` and multiplier 2.0 the cooldown before jitter is at least 480 s. -/
theorem C4_next_allowed_request_time (cipher : Cipher) (d : AdvancedOTPDevice)
    (now : ℚ) (code : String) (jitter : ℕ) (f : ℕ)
    (hrl : d.rateLimited now = false)
    (hlk : (d.lock_until = none ∧ f = d.failed_attempts) ∨
           (d.lockExpired now = true ∧ f = 0))
    (hj1 : 5 ≤ jitter) (hj2 : jitter ≤ 15) :
    (d.generate_token cipher now code jitter).1 = .SUCCESS code ∧
    (d.generate_token cipher now code jitter).2.next_allowed_request_time =
      some (now + 60 * d.cooldown_multiplier ^ f + (jitter : ℚ)) ∧
    (d.generate_token cipher now code jitter).2.failed_attempts = 0 ∧
    (f = 3 → d.cooldown_multiplier = 2 →
      (480 : ℚ) ≤ 60 * d.cooldown_multiplier ^ f) := by
  rcases hlk with ⟨hln, hf⟩ | ⟨hle, hf⟩
  · subst hf
    have hle : d.lockExpired now = false := by simp [lockExpired, hln]
    have hla : d.lockActive now = false := by simp [lockActive, hln]
    refine ⟨?_, ?_, ?_, ?_⟩
    · simp [generate_token, hrl, hle, hla]
    · simp [generate_token, hrl, hle, hla]
    · simp [generate_token, hrl, hle, hla]
    · intro h3 h2
      rw [h3, h2]
      norm_num
  · subst hf
    refine ⟨?_, ?_, ?_, ?_⟩
    · simp [generate_token, hrl, hle, lockActive]
    · simp [generate_token, hrl, hle, lockActive]
    · simp [generate_token, hrl, hle, lockActive]
    · intro h3
      exact absurd h3 (by norm_num)

/-- Witness for C4 at `exOtp`, `now = 0`, jitter 7. -/
theorem C4_witness :
    (Server.exOtp.generate_token Server.idCipher 0 "654321" 7).1 =
      .SUCCESS "654321" ∧
    (Server.exOtp.generate_token Server.idCipher 0 "654321" 7).2.next_allowed_request_time =
      some (0 + 60 * Server.exOtp.cooldown_multiplier ^ Server.exOtp.failed_attempts + ((7 : ℕ) : ℚ)) ∧
    (Server.exOtp.generate_token Server.idCipher 0 "654321" 7).2.failed_attempts = 0 ∧
    (Server.exOtp.failed_attempts = 3 → Server.exOtp.cooldown_multiplier = 2 →
      (480 : ℚ) ≤ 60 * Server.exOtp.cooldown_multiplier ^ Server.exOtp.failed_attempts) :=
  C4_next_allowed_request_time idCipher exOtp 0 "654321" 7 exOtp.failed_attempts
    rfl (Or.inl ⟨rfl, rfl⟩) (by decide) (by decide)

open AdvancedOTPDevice in
/-- C5: a mismatched verification increments the failed-attempt count; exactly
when the incremented count reaches `max_failed_attempts` the device is locked
for `now + random(5m, 10m)` and rejected as LOCKED; below the threshold it is
rejected as INVALID with the lock state unchanged. -/
theorem C5_mismatch_policy (cipher : Cipher) (d : AdvancedOTPDevice)
    (now : ℚ) (rlt : ℕ) (token ct plain : String)
    (hlock : d.lockActive now = false)
    (hct : d.otp_encrypted = some ct) (hne : ¬ ct = "")
    (hexp : d.otpExpired now = false)
    (hused : d.used = false)
    (hdec : cipher.decrypt ct = some plain)
    (hmm : ¬ plain = token)
    (hr1 : 300 ≤ rlt) (hr2 : rlt ≤ 600) :
    (d.verify_token cipher now rlt token).2.failed_attempts =
      d.failed_attempts + 1 ∧
    (d.failed_attempts + 1 ≥ d.max_failed_attempts →
      (d.verify_token cipher now rlt token).1 = .LOCKED ∧
      ∃ lockT : ℚ, (d.verify_token cipher now rlt token).2.lock_until = some lockT ∧
        now + 5 * 60 ≤ lockT ∧ lockT ≤ now + 10 * 60) ∧
    (d.failed_attempts + 1 < d.max_failed_attempts →
      (d.verify_token cipher now rlt token).1 = .INVALID ∧
      (d.verify_token cipher now rlt token).2.lock_until = d.lock_until) := by
  rw [verify_token_mismatch cipher d now rlt token ct plain hlock hct hne hexp
    hused hdec hmm]
  by_cases hth : d.failed_attempts + 1 ≥ d.max_failed_attempts
  · refine ⟨by simp [hth], fun _ => ⟨by simp [hth], now + (rlt : ℚ), by simp [hth], ?_, ?_⟩,
      fun hlt => absurd hth (not_le.mpr hlt)⟩
    · have : (300 : ℚ) ≤ (rlt : ℚ) := by exact_mod_cast hr1
      linarith
    · have : (rlt : ℚ) ≤ 600 := by exact_mod_cast hr2
      linarith
  · exact ⟨by simp [hth], fun hge => absurd hge hth, fun _ => ⟨by simp [hth], by simp [hth]⟩⟩

/-- Witness for C5 at a device with 4 prior failures (`exOtp4`). -/
theorem C5_witness :
    (Server.exOtp4.verify_token Server.idCipher 50 400 "000000").2.failed_attempts =
      Server.exOtp4.failed_attempts + 1 ∧
    (Server.exOtp4.failed_attempts + 1 ≥ Server.exOtp4.max_failed_attempts →
      (Server.exOtp4.verify_token Server.idCipher 50 400 "000000").1 = .LOCKED ∧
      ∃ lockT : ℚ,
        (Server.exOtp4.verify_token Server.idCipher 50 400 "000000").2.lock_until =
          some lockT ∧ 50 + 5 * 60 ≤ lockT ∧ lockT ≤ 50 + 10 * 60) ∧
    (Server.exOtp4.failed_attempts + 1 < Server.exOtp4.max_failed_attempts →
      (Server.exOtp4.verify_token Server.idCipher 50 400 "000000").1 = .INVALID ∧
      (Server.exOtp4.verify_token Server.idCipher 50 400 "000000").2.lock_until =
        Server.exOtp4.lock_until) :=
  C5_mismatch_policy idCipher exOtp4 50 400 "000000" "123456" "123456"
    rfl rfl (by decide) (by decide) rfl rfl (by decide) (by decide) (by decide)

open AdvancedOTPDevice in
/-- C6: after a successful verification the code is marked used and the
ciphertext cleared, so every later verification against that device state is
rejected (with kind INVALID, which satisfies "ALREADY_USED or INVALID") and
never succeeds. -/
theorem C6_single_use (cipher : Cipher) (d : AdvancedOTPDevice)
    (now : ℚ) (rlt : ℕ) (token : String)
    (h : (d.verify_token cipher now rlt token).1 = .SUCCESS) :
    (d.verify_token cipher now rlt token).2.used = true ∧
    (d.verify_token cipher now rlt token).2.otp_encrypted = none ∧
    ∀ (now' : ℚ) (rlt' : ℕ) (token' : String),
      ((d.verify_token cipher now rlt token).2.verify_token cipher
        now' rlt' token').1 = .INVALID := by
  rw [verify_token_success_state cipher d now rlt token h]
  refine ⟨rfl, rfl, fun now' rlt' token' => ?_⟩
  simp [verify_token, lockActive, otpPresent]

/-- Witness for C6: verify `exOtp`'s code, then replay it. -/
theorem C6_witness :
    ((Server.exOtp.verify_token Server.idCipher 50 400 "123456").2.verify_token
      Server.idCipher 60 500 "123456").1 = .INVALID :=
  (C6_single_use idCipher exOtp 50 400 "123456" (by decide)).2.2 60 500 "123456"

open AdvancedOTPDevice in
/-- C3 counterexample: a device whose lock (until `t = 500`) has elapsed by
`t = 1000` is touched by a verification (with a wrong code); the claim says
the lock auto-clears and the failed-attempt count resets to 0 on whichever
operation next touches the device, but the lock stays set and the count is
incremented to 1. -/
theorem C3_counterexample :
    (500 : ℚ) ≤ 1000 ∧
    (({ otp_encrypted := some "123456", otp_expiry := some 2000,
        lock_until := some 500 } : AdvancedOTPDevice).verify_token
          Server.idCipher 1000 400 "000000").2.lock_until = some 500 ∧
    (({ otp_encrypted := some "123456", otp_expiry := some 2000,
        lock_until := some 500 } : AdvancedOTPDevice).verify_token
          Server.idCipher 1000 400 "000000").2.failed_attempts = 1 := by
  refine ⟨by norm_num, ?_, ?_⟩ <;> decide

open AdvancedOTPDevice in
/-- C3 (amended): while `lock_until` has not elapsed every verification is
rejected as LOCKED with no state change; once elapsed, the lock clears and the
count resets on the next generation call that passes the rate-limit check, and
a successful verification also clears both — but a failed verification after
the lock elapsed leaves `lock_until` set and increments the count
(`C3_counterexample`). -/
theorem C3_lock_lifecycle (cipher : Cipher) (d : AdvancedOTPDevice) (now : ℚ) :
    (∀ (rlt : ℕ) (token : String), d.lockActive now = true →
      d.verify_token cipher now rlt token = (.LOCKED, d)) ∧
    (∀ (code : String) (jitter : ℕ), d.rateLimited now = false →
      d.lockExpired now = true →
      (d.generate_token cipher now code jitter).1 = .SUCCESS code ∧
      (d.generate_token cipher now code jitter).2.lock_until = none ∧
      (d.generate_token cipher now code jitter).2.failed_attempts = 0) ∧
    (∀ (rlt : ℕ) (token : String),
      (d.verify_token cipher now rlt token).1 = .SUCCESS →
      (d.verify_token cipher now rlt token).2.lock_until = none ∧
      (d.verify_token cipher now rlt token).2.failed_attempts = 0) := by
  refine ⟨fun rlt token h => verify_token_locked cipher d now rlt token h,
    fun code jitter hrl hle => ?_,
    fun rlt token h => by rw [verify_token_success_state cipher d now rlt token h]
                          exact ⟨rfl, rfl⟩⟩
  have hla : ({ d with lock_until := none, failed_attempts := 0 } :
      AdvancedOTPDevice).lockActive now = false := by simp [lockActive]
  refine ⟨?_, ?_, ?_⟩ <;> simp [generate_token, hrl, hle, lockActive]

/-- Witness for C3's amended theorem: a still-active lock rejects a
verification attempt unchanged. -/
theorem C3_witness :
    Server.exLocked.verify_token Server.idCipher 100 400 "000000" =
      (.LOCKED, Server.exLocked) :=
  (C3_lock_lifecycle idCipher exLocked 100).1 400 "000000" (by decide)

/-- C2: the claim says the number of active trusted devices per user never
exceeds `max_sessions` (5), in particular after the Verify2FA flow; but a user
with 5 active devices ends the (successful) flow with 6:
`enforce_session_limits` only trims down **to** the limit before the insert,
so the insert overshoots it — contradicting the model's own
"Maximum number of concurrent trusted devices allowed" contract. -/
theorem C2_limit_exceeded_after_verify2fa :
    (TrustedDevice.activeDevices 1
      ({ otpDevices := [(1, exOtp)], trusted := (List.range 5).map exDevice,
         users := [exUser] } : AppState).trusted).length = MAX_SESSIONS ∧
    (∃ resp,
      (verify2fa_post idCipher
        { otpDevices := [(1, exOtp)], trusted := (List.range 5).map exDevice,
          users := [exUser] }
        exUser 50 400 "123456" "dev-new" exUA (some "3.3.3.3") "atk" "rtk").1 =
        .OK resp) ∧
    (TrustedDevice.activeDevices 1
      (verify2fa_post idCipher
        { otpDevices := [(1, exOtp)], trusted := (List.range 5).map exDevice,
          users := [exUser] }
        exUser 50 400 "123456" "dev-new" exUA (some "3.3.3.3") "atk" "rtk").2.trusted).length =
      MAX_SESSIONS + 1 := by
  refine ⟨by decide, ⟨_, rfl⟩, by decide⟩

/-- C10: when the OTP device is missing or its verification fails, the
Verify2FA request changes no trusted-device rows and no user rows, and
returns an error response (no session tokens are issued). -/
theorem C10_failure_is_atomic (cipher : Cipher) (st : AppState) (user : User)
    (now : ℚ) (rlt : ℕ) (code nid : String) (ua : UAInfo) (ip : Option String)
    (atk rtk : String)
    (h : ∀ e, st.otpDevices.find? (fun x => x.1 = user.id) = some e →
         (e.2.verify_token cipher now rlt code).1 ≠ .SUCCESS) :
    (verify2fa_post cipher st user now rlt code nid ua ip atk rtk).2.trusted =
      st.trusted ∧
    (verify2fa_post cipher st user now rlt code nid ua ip atk rtk).2.users =
      st.users ∧
    ((verify2fa_post cipher st user now rlt code nid ua ip atk rtk).1 =
        .DEVICE_NOT_FOUND ∨
      ∃ k, (verify2fa_post cipher st user now rlt code nid ua ip atk rtk).1 =
        .VERIFY_FAILED k) := by
  rcases hf : st.otpDevices.find? (fun x => x.1 = user.id) with _ | e
  · simp [verify2fa_post, hf]
  · have hne := h e hf
    rcases hv : (e.2.verify_token cipher now rlt code).1 with _ | _ | _ | _ | _ | _ <;>
      simp [verify2fa_post, hf, hv] at hne ⊢

/-- Witness for C10: an empty state has no OTP device, so the flow returns
DEVICE_NOT_FOUND and changes nothing. -/
theorem C10_witness :
    (verify2fa_post Server.idCipher {} Server.exUser 50 400 "123456" "dev-new"
      Server.exUA (some "3.3.3.3") "atk" "rtk").2.trusted =
      (({} : AppState)).trusted ∧
    (verify2fa_post Server.idCipher {} Server.exUser 50 400 "123456" "dev-new"
      Server.exUA (some "3.3.3.3") "atk" "rtk").2.users =
      (({} : AppState)).users ∧
    ((verify2fa_post Server.idCipher {} Server.exUser 50 400 "123456" "dev-new"
        Server.exUA (some "3.3.3.3") "atk" "rtk").1 = .DEVICE_NOT_FOUND ∨
      ∃ k, (verify2fa_post Server.idCipher {} Server.exUser 50 400 "123456"
        "dev-new" Server.exUA (some "3.3.3.3") "atk" "rtk").1 =
        .VERIFY_FAILED k) :=
  C10_failure_is_atomic idCipher {} exUser 50 400 "123456" "dev-new" exUA
    (some "3.3.3.3") "atk" "rtk" (fun e he => by simp at he)

open TrustedDevice in
/-- C8: for a user with exactly 6 active trusted devices (with the globally
unique device ids and distinct last-login times), `enforce_session_limits`
deletes precisely the oldest-by-last-login device, leaving exactly the 5
most-recently-logged-in active devices. -/
theorem C8_enforce_six_devices (uid : ℕ) (devices : List TrustedDevice)
    (hids : devices.Pairwise (fun a b => a.device_id ≠ b.device_id))
    (hlen : (activeDevices uid devices).length = 6)
    (hdist : (activeDevices uid devices).Pairwise
      (fun a b => a.last_login ≠ b.last_login)) :
    ∃ m ∈ activeDevices uid devices,
      (∀ a ∈ activeDevices uid devices, a ≠ m → m.last_login < a.last_login) ∧
      enforce_session_limits uid devices =
        devices.filter (fun d => d.device_id ≠ m.device_id) ∧
      (activeDevices uid (enforce_session_limits uid devices)).length = 5 := by
  have hperm : List.Perm (List.insertionSort byLastLogin (activeDevices uid devices))
      (activeDevices uid devices) := List.perm_insertionSort _ _
  have hsort : List.Sorted byLastLogin
      (List.insertionSort byLastLogin (activeDevices uid devices)) :=
    List.sorted_insertionSort _ _
  obtain ⟨m, t, hmt⟩ : ∃ (m : TrustedDevice) (t : List TrustedDevice),
      List.insertionSort byLastLogin (activeDevices uid devices) = m :: t := by
    rcases hs : List.insertionSort byLastLogin (activeDevices uid devices)
      with _ | ⟨m, t⟩
    · have hl := hperm.length_eq
      rw [hs, hlen] at hl
      simp at hl
    · exact ⟨m, t, rfl⟩
  have hmA : m ∈ activeDevices uid devices :=
    hperm.subset (by rw [hmt]; exact List.mem_cons_self m t)
  have hmin : ∀ a ∈ activeDevices uid devices, a ≠ m →
      m.last_login < a.last_login := by
    intro a ha hne
    have hasort : a ∈ List.insertionSort byLastLogin (activeDevices uid devices) :=
      hperm.mem_iff.mpr ha
    rw [hmt] at hasort
    rcases List.mem_cons.mp hasort with h | h
    · exact absurd h hne
    · have hle : byLastLogin m a := List.rel_of_sorted_cons (hmt ▸ hsort) a h
      have hsymm : Symmetric (fun a b : TrustedDevice =>
          a.last_login ≠ b.last_login) := fun _ _ hxy => hxy.symm
      have hne' : m.last_login ≠ a.last_login :=
        hdist.forall hsymm hmA ha (Ne.symm hne)
      exact lt_of_le_of_ne hle hne'
  have henf : enforce_session_limits uid devices =
      devices.filter (fun d => d.device_id ≠ m.device_id) := by
    simp only [enforce_session_limits]
    rw [hlen, if_pos (by decide : (6:ℕ) > MAX_SESSIONS),
      (rfl : (6:ℕ) - MAX_SESSIONS = 1), hmt]
    refine List.filter_congr (fun d _ => ?_)
    simp [List.take]
  have hsubl : List.Sublist (activeDevices uid devices) devices :=
    List.filter_sublist devices
  have hNd : (activeDevices uid devices).Pairwise
      (fun a b => a.device_id ≠ b.device_id) := List.Pairwise.sublist hsubl hids
  obtain ⟨B, C, hBC⟩ := List.append_of_mem hmA
  have hcross := (List.pairwise_append.mp (hBC ▸ hNd))
  have hfB : ∀ b ∈ B, b.device_id ≠ m.device_id := fun b hb =>
    hcross.2.2 b hb m (List.mem_cons_self m C)
  have hfC : ∀ c ∈ C, c.device_id ≠ m.device_id := fun c hc =>
    Ne.symm ((List.pairwise_cons.mp hcross.2.1).1 c hc)
  have hflen : ((activeDevices uid devices).filter
      (fun d => d.device_id ≠ m.device_id)).length = 5 := by
    have hlenBC : B.length + (C.length + 1) = 6 := by
      have := hlen
      rw [hBC] at this
      simpa using this
    rw [hBC, List.filter_append]
    have h1 : B.filter (fun d => d.device_id ≠ m.device_id) = B :=
      List.filter_eq_self.mpr (fun b hb => by simpa using hfB b hb)
    have h2 : C.filter (fun d => d.device_id ≠ m.device_id) = C :=
      List.filter_eq_self.mpr (fun c hc => by simpa using hfC c hc)
    have hstep : List.filter (fun d => d.device_id ≠ m.device_id) (m :: C) =
        List.filter (fun d => d.device_id ≠ m.device_id) C := by
      rw [List.filter_cons]
      simp
    rw [hstep, h1, h2, List.length_append]
    omega
  have hcomm : activeDevices uid
      (devices.filter (fun d => d.device_id ≠ m.device_id)) =
      (activeDevices uid devices).filter
        (fun d => d.device_id ≠ m.device_id) := by
    unfold activeDevices
    rw [List.filter_filter, List.filter_filter]
    exact List.filter_congr (fun a _ => by rw [Bool.and_comm])
  exact ⟨m, hmA, hmin, henf, by rw [henf, hcomm, hflen]⟩

/-- Witness for C8 at six concrete active devices for user 1. -/
theorem C8_witness :
    ∃ m ∈ TrustedDevice.activeDevices 1 ((List.range 6).map Server.exDevice),
      (∀ a ∈ TrustedDevice.activeDevices 1 ((List.range 6).map Server.exDevice),
        a ≠ m → m.last_login < a.last_login) ∧
      TrustedDevice.enforce_session_limits 1 ((List.range 6).map Server.exDevice) =
        ((List.range 6).map Server.exDevice).filter
          (fun d => d.device_id ≠ m.device_id) ∧
      (TrustedDevice.activeDevices 1
        (TrustedDevice.enforce_session_limits 1
          ((List.range 6).map Server.exDevice))).length = 5 :=
  C8_enforce_six_devices 1 ((List.range 6).map exDevice)
    (by decide) (by decide) (by decide)

/-! ### IP pipeline lemmas -/

/-- `is_ip_in_db_blocklist` only touches the `blocked_ip:` cache. -/
theorem is_ip_preserves (s : SysState) (ip : String) (t : ℚ) :
    (s.is_ip_in_db_blocklist ip t).2.db = s.db ∧
    (s.is_ip_in_db_blocklist ip t).2.loginAttempts = s.loginAttempts := by
  unfold SysState.is_ip_in_db_blocklist
  rcases hg : s.cacheGetBlocked ip t with _ | b <;>
    simp [hg, SysState.cacheSetBlocked]

/-- Without a `BlockedIP` row for `ip`, the database lookup is negative. -/
theorem dbBlockExists_eq_false (s : SysState) (ip : String)
    (h : s.db.find? (fun r => r.1 = ip) = none) :
    s.dbBlockExists ip = false := by
  simp only [SysState.dbBlockExists, List.any_eq_false, decide_eq_true_eq]
  intro r hr
  have hni := List.find?_eq_none.mp h r hr
  simp only [decide_eq_true_eq] at hni
  exact fun hcon => hni hcon.1

/-- A live cached value for `ip` is the value of some cache entry for `ip`. -/
theorem cacheGetBlocked_some (s : SysState) (ip : String) (t : ℚ) (b : Bool)
    (h : s.cacheGetBlocked ip t = some b) :
    ∃ e ∈ s.blockCache, e.1 = ip ∧ e.2.1 = b := by
  unfold SysState.cacheGetBlocked at h
  rcases hf : s.blockCache.find? (fun e => e.1 = ip) with _ | e <;> rw [hf] at h
  · exact absurd h (by simp)
  · have hmem := List.mem_of_find?_eq_some hf
    have hkey : e.1 = ip := by simpa using List.find?_some hf
    by_cases hlive : t < e.2.2
    · refine ⟨e, hmem, hkey, ?_⟩
      simpa [hlive] using h
    · simp [hlive] at h

/-- On a state whose database and cache know nothing positive about `ip`,
`is_ip_in_db_blocklist` answers `false` and preserves that situation. -/
theorem is_ip_false_of_fresh (s : SysState) (ip : String) (t : ℚ)
    (hdb : s.db.find? (fun r => r.1 = ip) = none)
    (hc : ∀ e ∈ s.blockCache, e.1 = ip → e.2.1 = false) :
    (s.is_ip_in_db_blocklist ip t).1 = false ∧
    (∀ e ∈ (s.is_ip_in_db_blocklist ip t).2.blockCache,
      e.1 = ip → e.2.1 = false) := by
  have hdbx := dbBlockExists_eq_false s ip hdb
  unfold SysState.is_ip_in_db_blocklist
  rcases hg : s.cacheGetBlocked ip t with _ | b
  · refine ⟨by simp [hg, hdbx], ?_⟩
    simp only [hg]
    intro e he hip
    simp only [SysState.cacheSetBlocked, List.mem_cons] at he
    rcases he with he | he
    · rw [he, hdbx]
    · exact hc e (List.mem_of_mem_filter he) hip
  · obtain ⟨e, hmem, hkey, hval⟩ := cacheGetBlocked_some s ip t b hg
    have hb : b = false := hval ▸ hc e hmem hkey
    subst hb
    refine ⟨by simp [hg], ?_⟩
    simp only [hg]
    exact hc

/-- Incrementing a live counter keeps its expiry. -/
theorem increment_live (s : SysState) (ip : String) (t : ℚ) (k : ℕ) (exp : ℚ)
    (h : s.loginAttempts.find? (fun e => e.1 = ip) = some (ip, k, exp))
    (hlive : t < exp) :
    s.increment_attempts_in_redis ip t =
      (k + 1, { s with loginAttempts :=
        (ip, k + 1, exp) :: s.loginAttempts.filter (fun x => x.1 ≠ ip) }) := by
  unfold SysState.increment_attempts_in_redis
  rw [h]
  simp [hlive]

/-- Incrementing a missing (or expired-and-removed) counter initializes it to
1 with the 15-minute TTL. -/
theorem increment_fresh (s : SysState) (ip : String) (t : ℚ)
    (h : s.loginAttempts.find? (fun e => e.1 = ip) = none) :
    s.increment_attempts_in_redis ip t =
      (1, { s with loginAttempts :=
        (ip, 1, t + REDIS_EXPIRE_SECONDS)
          :: s.loginAttempts.filter (fun x => x.1 ≠ ip) }) := by
  unfold SysState.increment_attempts_in_redis
  rw [h]

/-- Everything `permanently_block_ip` promises: a positive durable row, a
positively cached entry (and nothing else cached for `ip`), and a cleared
attempt counter. -/
theorem permanently_block_spec (s : SysState) (ip : String) (t : ℚ) :
    (s.permanently_block_ip ip t).dbBlockExists ip = true ∧
    (∀ e ∈ (s.permanently_block_ip ip t).blockCache, e.1 = ip → e.2.1 = true) ∧
    (s.permanently_block_ip ip t).cacheGetBlocked ip t = some true ∧
    (s.permanently_block_ip ip t).loginAttempts.find?
      (fun e => e.1 = ip) = none := by
  refine ⟨?_, ?_, ?_, ?_⟩
  · unfold SysState.permanently_block_ip SysState.cacheSetBlocked
      SysState.reset_attempts_in_redis
    rcases hf : s.db.find? (fun r => r.1 = ip) with _ | r <;> simp only [hf]
    · simp [SysState.dbBlockExists]
    · have hmem := List.mem_of_find?_eq_some hf
      have hkey : r.1 = ip := by simpa using List.find?_some hf
      simp only [SysState.dbBlockExists, List.any_eq_true, decide_eq_true_eq]
      refine ⟨(if r.1 = ip ∧ r.2 = false then (r.1, true) else r),
        List.mem_map_of_mem _ hmem, ?_⟩
      cases hr2 : r.2 with
      | false => simp [hkey, hr2]
      | true => simp [hkey, hr2]
  · intro e he hip
    simp only [SysState.permanently_block_ip, SysState.cacheSetBlocked,
      SysState.reset_attempts_in_redis, List.mem_cons] at he
    rcases he with he | he
    · rw [he]
    · exact absurd hip (by simpa using (List.mem_filter.mp he).2)
  · simp only [SysState.permanently_block_ip, SysState.cacheSetBlocked,
      SysState.reset_attempts_in_redis, SysState.cacheGetBlocked]
    rw [List.find?_cons_of_pos _ (by simp)]
    simp [BLOCK_CACHE_TTL]
  · simp only [SysState.permanently_block_ip, SysState.cacheSetBlocked,
      SysState.reset_attempts_in_redis]
    refine List.find?_eq_none.mpr (fun x hx => ?_)
    simpa using (List.mem_filter.mp hx).2

/-- On a state durably blocking `ip` with no stale negative cache entry, the
middleware rejects the request with 403 at any time. -/
theorem process_request_blocked (s : SysState) (ip : String) (t : ℚ)
    (debug : Bool)
    (hdbx : s.dbBlockExists ip = true)
    (hcall : ∀ e ∈ s.blockCache, e.1 = ip → e.2.1 = true) :
    (process_request s debug (some ip) t).1 = .FORBIDDEN := by
  unfold process_request SysState.is_ip_in_db_blocklist
  rcases hg : s.cacheGetBlocked ip t with _ | b
  · simp [hg, hdbx]
  · obtain ⟨e, hmem, hkey, hval⟩ := cacheGetBlocked_some s ip t b hg
    have hb : b = true := hval ▸ hcall e hmem hkey
    subst hb
    simp [hg]

/-- When the blocklist check is negative, the middleware lets the request
proceed with the (possibly cache-refreshed) state. -/
theorem process_request_not_blocked (s : SysState) (ip : String) (t : ℚ)
    (debug : Bool) (h : (s.is_ip_in_db_blocklist ip t).1 = false) :
    process_request s debug (some ip) t =
      (.PROCEED, (s.is_ip_in_db_blocklist ip t).2) := by
  simp only [process_request]
  rw [h]
  simp

/-- When the blocklist check is negative, `block_ip` increments the counter
and branches on the threshold. -/
theorem block_ip_not_blocked (s : SysState) (ip : String) (t : ℚ)
    (h : (s.is_ip_in_db_blocklist ip t).1 = false) :
    block_ip s (some ip) t =
      (if ((s.is_ip_in_db_blocklist ip t).2.increment_attempts_in_redis ip t).1 ≥
          MAX_ATTEMPTS
       then (.FORBIDDEN,
         ((s.is_ip_in_db_blocklist ip t).2.increment_attempts_in_redis
           ip t).2.permanently_block_ip ip t)
       else (.PROCEED,
         ((s.is_ip_in_db_blocklist ip t).2.increment_attempts_in_redis
           ip t).2)) := by
  simp only [block_ip]
  rw [h]
  simp

open SysState in
/-- C7: on an IP with 4 counted failures live in the window and not blocked,
the 5th `block_ip` call reports 403, creates the positive durable row, caches
it positively, clears the counter, and every later request is rejected by the
middleware with 403. -/
theorem C7_fifth_failure_permanent_block (s : SysState) (ip : String)
    (t exp : ℚ)
    (hnb : (s.is_ip_in_db_blocklist ip t).1 = false)
    (hctr : s.loginAttempts.find? (fun e => e.1 = ip) = some (ip, 4, exp))
    (hlive : t < exp) :
    (block_ip s (some ip) t).1 = .FORBIDDEN ∧
    (block_ip s (some ip) t).2.dbBlockExists ip = true ∧
    (block_ip s (some ip) t).2.cacheGetBlocked ip t = some true ∧
    (block_ip s (some ip) t).2.loginAttempts.find? (fun e => e.1 = ip) = none ∧
    ∀ (u : ℚ) (debug : Bool),
      (process_request (block_ip s (some ip) t).2 debug (some ip) u).1 =
        .FORBIDDEN := by
  have hpres := is_ip_preserves s ip t
  have hincr := increment_live (s.is_ip_in_db_blocklist ip t).2 ip t 4 exp
    (by rw [hpres.2]; exact hctr) hlive
  have hbl : block_ip s (some ip) t =
      (.FORBIDDEN,
       ((s.is_ip_in_db_blocklist ip t).2.increment_attempts_in_redis
         ip t).2.permanently_block_ip ip t) := by
    rw [block_ip_not_blocked s ip t hnb, hincr]
    norm_num [MAX_ATTEMPTS]
  have hspec := permanently_block_spec
    ((s.is_ip_in_db_blocklist ip t).2.increment_attempts_in_redis ip t).2 ip t
  rw [hbl]
  exact ⟨rfl, hspec.1, hspec.2.2.1, hspec.2.2.2,
    fun u debug => process_request_blocked _ ip u debug hspec.1 hspec.2.1⟩

/-- Witness for C7: a state holding exactly the live counter at 4 for the IP,
and a later middleware check one hour after the block. -/
theorem C7_witness :
    (block_ip { loginAttempts := [("9.9.9.9", 4, 900)] } (some "9.9.9.9") 0).1 =
      .FORBIDDEN ∧
    (process_request
      (block_ip { loginAttempts := [("9.9.9.9", 4, 900)] } (some "9.9.9.9") 0).2
      false (some "9.9.9.9") 3600).1 = .FORBIDDEN :=
  ⟨(C7_fifth_failure_permanent_block { loginAttempts := [("9.9.9.9", 4, 900)] }
      "9.9.9.9" 0 900 (by decide) (by decide) (by decide)).1,
   (C7_fifth_failure_permanent_block { loginAttempts := [("9.9.9.9", 4, 900)] }
      "9.9.9.9" 0 900 (by decide) (by decide) (by decide)).2.2.2.2 3600 false⟩

/-! ### Login-request step lemmas -/

/-- Shape of a failed-credentials login on an unblocked IP: `block_ip` runs
(and may block), but its response is discarded and the view answers 401. -/
theorem login_post_wrong_shape (cipher : Cipher) (st : AppState) (debug : Bool)
    (ip : String) (cookie : Option String) (ua : UAInfo) (t : ℚ)
    (code : String) (jitter : ℕ) (atk rtk : String)
    (h : (st.sys.is_ip_in_db_blocklist ip t).1 = false) :
    login_post cipher st debug (some ip) none cookie ua t code jitter atk rtk =
      (.UNAUTHORIZED,
       { st with sys :=
           (block_ip (st.sys.is_ip_in_db_blocklist ip t).2 (some ip) t).2 }) := by
  have hmw := process_request_not_blocked st.sys ip t debug h
  simp only [login_post, hmw]

/-- Any login request from a durably blocked IP (with no stale negative cache
entry) is rejected by the middleware before the view runs. -/
theorem login_post_blocked_ip (cipher : Cipher) (st : AppState) (debug : Bool)
    (ip : String) (auth : Option User) (cookie : Option String) (ua : UAInfo)
    (t : ℚ) (code : String) (jitter : ℕ) (atk rtk : String)
    (hdbx : st.sys.dbBlockExists ip = true)
    (hcall : ∀ e ∈ st.sys.blockCache, e.1 = ip → e.2.1 = true) :
    (login_post cipher st debug (some ip) auth cookie ua t code jitter atk
      rtk).1 = .FORBIDDEN_IP := by
  have hmw := process_request_blocked st.sys ip t debug hdbx hcall
  rcases hp : process_request st.sys debug (some ip) t with ⟨o, sys1⟩
  rw [hp] at hmw
  simp only at hmw
  subst hmw
  simp [login_post, hp]

/-- One wrong-password login from an IP unknown to the database, with no
positive cache entry and a live counter at `k < 4`: 401, counter bumped. -/
theorem login_wrong_live (cipher : Cipher) (st : AppState) (debug : Bool)
    (ip : String) (cookie : Option String) (ua : UAInfo) (t : ℚ)
    (code : String) (jitter : ℕ) (atk rtk : String) (k : ℕ) (exp : ℚ)
    (hdb : st.sys.db.find? (fun r => r.1 = ip) = none)
    (hc : ∀ e ∈ st.sys.blockCache, e.1 = ip → e.2.1 = false)
    (hctr : st.sys.loginAttempts.find? (fun e => e.1 = ip) = some (ip, k, exp))
    (hlive : t < exp) (hk : k + 1 < MAX_ATTEMPTS) :
    (login_post cipher st debug (some ip) none cookie ua t code jitter atk
      rtk).1 = .UNAUTHORIZED ∧
    (login_post cipher st debug (some ip) none cookie ua t code jitter atk
      rtk).2.sys.db.find? (fun r => r.1 = ip) = none ∧
    (∀ e ∈ (login_post cipher st debug (some ip) none cookie ua t code jitter
      atk rtk).2.sys.blockCache, e.1 = ip → e.2.1 = false) ∧
    (login_post cipher st debug (some ip) none cookie ua t code jitter atk
      rtk).2.sys.loginAttempts.find? (fun e => e.1 = ip) =
      some (ip, k + 1, exp) := by
  have h1 := is_ip_false_of_fresh st.sys ip t hdb hc
  have hpres1 := is_ip_preserves st.sys ip t
  have hdb1 : (st.sys.is_ip_in_db_blocklist ip t).2.db.find?
      (fun r => r.1 = ip) = none := by rw [hpres1.1]; exact hdb
  have h2 := is_ip_false_of_fresh (st.sys.is_ip_in_db_blocklist ip t).2 ip t
    hdb1 h1.2
  have hpres2 := is_ip_preserves (st.sys.is_ip_in_db_blocklist ip t).2 ip t
  have hctr2 : ((st.sys.is_ip_in_db_blocklist ip t).2.is_ip_in_db_blocklist
      ip t).2.loginAttempts.find? (fun e => e.1 = ip) = some (ip, k, exp) := by
    rw [hpres2.2, hpres1.2]; exact hctr
  have hincr := increment_live _ ip t k exp hctr2 hlive
  have hbl := block_ip_not_blocked (st.sys.is_ip_in_db_blocklist ip t).2 ip t
    h2.1
  rw [hincr, if_neg (not_le.mpr hk)] at hbl
  rw [login_post_wrong_shape cipher st debug ip cookie ua t code jitter atk rtk
    h1.1, hbl]
  refine ⟨rfl, ?_, ?_, ?_⟩
  · simp only
    rw [hpres2.1, hpres1.1]
    exact hdb
  · intro e he hip
    simp only at he
    exact h2.2 e he hip
  · simp only
    rw [List.find?_cons_of_pos _ (by simp)]

/-- The first wrong-password login from a completely fresh IP: 401, counter
initialized to 1 with the 15-minute TTL. -/
theorem login_wrong_fresh (cipher : Cipher) (st : AppState) (debug : Bool)
    (ip : String) (cookie : Option String) (ua : UAInfo) (t : ℚ)
    (code : String) (jitter : ℕ) (atk rtk : String)
    (hdb : st.sys.db.find? (fun r => r.1 = ip) = none)
    (hc : ∀ e ∈ st.sys.blockCache, e.1 = ip → e.2.1 = false)
    (hctr : st.sys.loginAttempts.find? (fun e => e.1 = ip) = none) :
    (login_post cipher st debug (some ip) none cookie ua t code jitter atk
      rtk).1 = .UNAUTHORIZED ∧
    (login_post cipher st debug (some ip) none cookie ua t code jitter atk
      rtk).2.sys.db.find? (fun r => r.1 = ip) = none ∧
    (∀ e ∈ (login_post cipher st debug (some ip) none cookie ua t code jitter
      atk rtk).2.sys.blockCache, e.1 = ip → e.2.1 = false) ∧
    (login_post cipher st debug (some ip) none cookie ua t code jitter atk
      rtk).2.sys.loginAttempts.find? (fun e => e.1 = ip) =
      some (ip, 1, t + REDIS_EXPIRE_SECONDS) := by
  have h1 := is_ip_false_of_fresh st.sys ip t hdb hc
  have hpres1 := is_ip_preserves st.sys ip t
  have hdb1 : (st.sys.is_ip_in_db_blocklist ip t).2.db.find?
      (fun r => r.1 = ip) = none := by rw [hpres1.1]; exact hdb
  have h2 := is_ip_false_of_fresh (st.sys.is_ip_in_db_blocklist ip t).2 ip t
    hdb1 h1.2
  have hpres2 := is_ip_preserves (st.sys.is_ip_in_db_blocklist ip t).2 ip t
  have hctr2 : ((st.sys.is_ip_in_db_blocklist ip t).2.is_ip_in_db_blocklist
      ip t).2.loginAttempts.find? (fun e => e.1 = ip) = none := by
    rw [hpres2.2, hpres1.2]; exact hctr
  have hincr := increment_fresh _ ip t hctr2
  have hbl := block_ip_not_blocked (st.sys.is_ip_in_db_blocklist ip t).2 ip t
    h2.1
  rw [hincr, if_neg (by simp [MAX_ATTEMPTS])] at hbl
  rw [login_post_wrong_shape cipher st debug ip cookie ua t code jitter atk rtk
    h1.1, hbl]
  refine ⟨rfl, ?_, ?_, ?_⟩
  · simp only
    rw [hpres2.1, hpres1.1]
    exact hdb
  · intro e he hip
    simp only at he
    exact h2.2 e he hip
  · simp only
    rw [List.find?_cons_of_pos _ (by simp)]

/-- The wrong-password login that crosses the threshold (counter at `k` with
`k + 1 ≥ 5`): the response is still 401, but the IP is now durably blocked
with a positive cache entry and a cleared counter. -/
theorem login_wrong_fifth (cipher : Cipher) (st : AppState) (debug : Bool)
    (ip : String) (cookie : Option String) (ua : UAInfo) (t : ℚ)
    (code : String) (jitter : ℕ) (atk rtk : String) (k : ℕ) (exp : ℚ)
    (hdb : st.sys.db.find? (fun r => r.1 = ip) = none)
    (hc : ∀ e ∈ st.sys.blockCache, e.1 = ip → e.2.1 = false)
    (hctr : st.sys.loginAttempts.find? (fun e => e.1 = ip) = some (ip, k, exp))
    (hlive : t < exp) (hk : k + 1 ≥ MAX_ATTEMPTS) :
    (login_post cipher st debug (some ip) none cookie ua t code jitter atk
      rtk).1 = .UNAUTHORIZED ∧
    (login_post cipher st debug (some ip) none cookie ua t code jitter atk
      rtk).2.sys.dbBlockExists ip = true ∧
    (∀ e ∈ (login_post cipher st debug (some ip) none cookie ua t code jitter
      atk rtk).2.sys.blockCache, e.1 = ip → e.2.1 = true) := by
  have h1 := is_ip_false_of_fresh st.sys ip t hdb hc
  have hpres1 := is_ip_preserves st.sys ip t
  have hdb1 : (st.sys.is_ip_in_db_blocklist ip t).2.db.find?
      (fun r => r.1 = ip) = none := by rw [hpres1.1]; exact hdb
  have h2 := is_ip_false_of_fresh (st.sys.is_ip_in_db_blocklist ip t).2 ip t
    hdb1 h1.2
  have hpres2 := is_ip_preserves (st.sys.is_ip_in_db_blocklist ip t).2 ip t
  have hctr2 : ((st.sys.is_ip_in_db_blocklist ip t).2.is_ip_in_db_blocklist
      ip t).2.loginAttempts.find? (fun e => e.1 = ip) = some (ip, k, exp) := by
    rw [hpres2.2, hpres1.2]; exact hctr
  have hincr := increment_live _ ip t k exp hctr2 hlive
  have hbl := block_ip_not_blocked (st.sys.is_ip_in_db_blocklist ip t).2 ip t
    h2.1
  rw [hincr, if_pos hk] at hbl
  have hspec := permanently_block_spec
    ({ ((st.sys.is_ip_in_db_blocklist ip t).2.is_ip_in_db_blocklist ip t).2 with
       loginAttempts := (ip, k + 1, exp) ::
         ((st.sys.is_ip_in_db_blocklist ip t).2.is_ip_in_db_blocklist
           ip t).2.loginAttempts.filter (fun x => x.1 ≠ ip) } : SysState) ip t
  rw [login_post_wrong_shape cipher st debug ip cookie ua t code jitter atk rtk
    h1.1, hbl]
  exact ⟨rfl, hspec.1, hspec.2.1⟩

/-- C1 counterexample: from a fresh state, the fifth wrong-password login in
a row from IP 9.9.9.9 returns 401 UNAUTHORIZED, not 403 as the claim states:
`Login.post` discards the 403 response `block_ip` builds when it blocks the
IP (the spec's own CREDENTIAL_CHECK transition says the message never reveals
whether a block occurred). -/
theorem C1_counterexample :
    (exWrongLogin (exTrace 4) ((4 : ℕ) : ℚ)).1 = .UNAUTHORIZED ∧
    LoginOutcome.UNAUTHORIZED ≠ LoginOutcome.FORBIDDEN_IP := by
  have e1 := login_wrong_fresh idCipher (exTrace 0) false "9.9.9.9" none exUA
    ((0 : ℕ) : ℚ) "123456" 7 "atk" "rtk" rfl (by simp [exTrace]) rfl
  have e2 := login_wrong_live idCipher (exTrace 1) false "9.9.9.9" none exUA
    ((1 : ℕ) : ℚ) "123456" 7 "atk" "rtk" 1 (((0 : ℕ) : ℚ) + REDIS_EXPIRE_SECONDS)
    e1.2.1 e1.2.2.1 e1.2.2.2 (by norm_num [REDIS_EXPIRE_SECONDS])
    (by norm_num [MAX_ATTEMPTS])
  have e3 := login_wrong_live idCipher (exTrace 2) false "9.9.9.9" none exUA
    ((2 : ℕ) : ℚ) "123456" 7 "atk" "rtk" 2 (((0 : ℕ) : ℚ) + REDIS_EXPIRE_SECONDS)
    e2.2.1 e2.2.2.1 e2.2.2.2 (by norm_num [REDIS_EXPIRE_SECONDS])
    (by norm_num [MAX_ATTEMPTS])
  have e4 := login_wrong_live idCipher (exTrace 3) false "9.9.9.9" none exUA
    ((3 : ℕ) : ℚ) "123456" 7 "atk" "rtk" 3 (((0 : ℕ) : ℚ) + REDIS_EXPIRE_SECONDS)
    e3.2.1 e3.2.2.1 e3.2.2.2 (by norm_num [REDIS_EXPIRE_SECONDS])
    (by norm_num [MAX_ATTEMPTS])
  have e5 := login_wrong_fifth idCipher (exTrace 4) false "9.9.9.9" none exUA
    ((4 : ℕ) : ℚ) "123456" 7 "atk" "rtk" 4 (((0 : ℕ) : ℚ) + REDIS_EXPIRE_SECONDS)
    e4.2.1 e4.2.2.1 e4.2.2.2 (by norm_num [REDIS_EXPIRE_SECONDS])
    (by norm_num [MAX_ATTEMPTS])
  exact ⟨e5.1, by decide⟩

/-- C1 (amended): for every IP fresh to the pipeline, four wrong-password
login requests inside the counter window each return 401 UNAUTHORIZED; the
fifth also returns 401 — not 403 as the claim states (`C1_counterexample`) —
but durably blocks the IP; and every subsequent login request from that IP,
with any credentials and at any time, is rejected at the IP-check middleware
with 403. -/
theorem C1_amended (cipher : Cipher) (st : AppState) (debug : Bool)
    (ip : String) (cookie : Option String) (ua : UAInfo) (code : String)
    (jitter : ℕ) (atk rtk : String) (t1 t2 t3 t4 t5 : ℚ)
    {r1 r2 r3 r4 r5 : LoginOutcome × AppState}
    (hdb : st.sys.db.find? (fun r => r.1 = ip) = none)
    (hc : ∀ e ∈ st.sys.blockCache, e.1 = ip → e.2.1 = false)
    (hctr : st.sys.loginAttempts.find? (fun e => e.1 = ip) = none)
    (h12 : t1 ≤ t2) (h23 : t2 ≤ t3) (h34 : t3 ≤ t4) (h45 : t4 ≤ t5)
    (hwin : t5 < t1 + REDIS_EXPIRE_SECONDS)
    (hr1 : r1 = login_post cipher st debug (some ip) none cookie ua t1 code
      jitter atk rtk)
    (hr2 : r2 = login_post cipher r1.2 debug (some ip) none cookie ua t2 code
      jitter atk rtk)
    (hr3 : r3 = login_post cipher r2.2 debug (some ip) none cookie ua t3 code
      jitter atk rtk)
    (hr4 : r4 = login_post cipher r3.2 debug (some ip) none cookie ua t4 code
      jitter atk rtk)
    (hr5 : r5 = login_post cipher r4.2 debug (some ip) none cookie ua t5 code
      jitter atk rtk) :
    r1.1 = .UNAUTHORIZED ∧ r2.1 = .UNAUTHORIZED ∧ r3.1 = .UNAUTHORIZED ∧
    r4.1 = .UNAUTHORIZED ∧ r5.1 = .UNAUTHORIZED ∧
    r5.2.sys.dbBlockExists ip = true ∧
    ∀ (t6 : ℚ) (debug6 : Bool) (auth6 : Option User) (cookie6 : Option String)
      (ua6 : UAInfo) (code6 : String) (jitter6 : ℕ) (atk6 rtk6 : String),
      (login_post cipher r5.2 debug6 (some ip) auth6 cookie6 ua6 t6 code6
        jitter6 atk6 rtk6).1 = .FORBIDDEN_IP := by
  subst hr1 hr2 hr3 hr4 hr5
  have hw2 : t2 < t1 + REDIS_EXPIRE_SECONDS :=
    lt_of_le_of_lt (le_trans h23 (le_trans h34 h45)) hwin
  have hw3 : t3 < t1 + REDIS_EXPIRE_SECONDS :=
    lt_of_le_of_lt (le_trans h34 h45) hwin
  have hw4 : t4 < t1 + REDIS_EXPIRE_SECONDS := lt_of_le_of_lt h45 hwin
  have e1 := login_wrong_fresh cipher st debug ip cookie ua t1 code jitter atk
    rtk hdb hc hctr
  have e2 := login_wrong_live cipher _ debug ip cookie ua t2 code jitter atk
    rtk 1 (t1 + REDIS_EXPIRE_SECONDS) e1.2.1 e1.2.2.1 e1.2.2.2 hw2
    (by norm_num [MAX_ATTEMPTS])
  have e3 := login_wrong_live cipher _ debug ip cookie ua t3 code jitter atk
    rtk 2 (t1 + REDIS_EXPIRE_SECONDS) e2.2.1 e2.2.2.1 e2.2.2.2 hw3
    (by norm_num [MAX_ATTEMPTS])
  have e4 := login_wrong_live cipher _ debug ip cookie ua t4 code jitter atk
    rtk 3 (t1 + REDIS_EXPIRE_SECONDS) e3.2.1 e3.2.2.1 e3.2.2.2 hw4
    (by norm_num [MAX_ATTEMPTS])
  have e5 := login_wrong_fifth cipher _ debug ip cookie ua t5 code jitter atk
    rtk 4 (t1 + REDIS_EXPIRE_SECONDS) e4.2.1 e4.2.2.1 e4.2.2.2 hwin
    (by norm_num [MAX_ATTEMPTS])
  exact ⟨e1.1, e2.1, e3.1, e4.1, e5.1, e5.2.1,
    fun t6 debug6 auth6 cookie6 ua6 code6 jitter6 atk6 rtk6 =>
      login_post_blocked_ip cipher _ debug6 ip auth6 cookie6 ua6 t6 code6
        jitter6 atk6 rtk6 e5.2.1 e5.2.2⟩

/-- Witness for C1's amended theorem on the concrete 5-request trace; the
sixth request carries correct credentials (an authenticated active user). -/
theorem C1_witness :
    (exWrongLogin (exTrace 4) ((4 : ℕ) : ℚ)).1 = .UNAUTHORIZED ∧
    (exTrace 5).sys.dbBlockExists "9.9.9.9" = true ∧
    (login_post idCipher (exTrace 5) false (some "9.9.9.9") (some exUser)
      none exUA 100 "123456" 7 "atk" "rtk").1 = .FORBIDDEN_IP := by
  have h := C1_amended idCipher {} false "9.9.9.9" none exUA "123456" 7
    "atk" "rtk" ((0 : ℕ) : ℚ) ((1 : ℕ) : ℚ) ((2 : ℕ) : ℚ) ((3 : ℕ) : ℚ)
    ((4 : ℕ) : ℚ) rfl (by simp) rfl (by norm_num) (by norm_num)
    (by norm_num) (by norm_num) (by norm_num [REDIS_EXPIRE_SECONDS])
    rfl rfl rfl rfl rfl
  exact ⟨h.2.2.2.2.1, h.2.2.2.2.2.1,
    h.2.2.2.2.2.2 100 false (some exUser) none exUA "123456" 7 "atk" "rtk"⟩

/-- C9 counterexample: a concrete trusted-bypass login. The claim says the
response includes the caller's device identifier unchanged and that the
device metadata (browser/OS/IP) is updated; but the bypass response carries
no device identifier key at all, and the stored device keeps its stale
metadata: the view assigns new metadata only to the in-memory instance, and
`renew()` persists nothing but `expires_at`
(`save(update_fields=["expires_at"])`). -/
theorem C9_counterexample :
    (login_post idCipher exBypassState false (some "2.2.2.2") (some exUser)
      (some "cookie-1") exUA 50 "123456" 7 "atk" "rtk").1 =
      .TRUSTED_BYPASS
        { user_id := 1, email := "user@example.com", username := "user",
          avatar := none, access_token := "atk", refresh_token := "rtk",
          otp_required := some false, trusted_device_id := none } ∧
    (∀ resp, (login_post idCipher exBypassState false (some "2.2.2.2")
        (some exUser) (some "cookie-1") exUA 50 "123456" 7 "atk" "rtk").1 =
        .TRUSTED_BYPASS resp → resp.trusted_device_id ≠ some "cookie-1") ∧
    ((login_post idCipher exBypassState false (some "2.2.2.2") (some exUser)
      (some "cookie-1") exUA 50 "123456" 7 "atk" "rtk").2.trusted.map
        (fun d => d.browser)) = ["OldBrowser"] ∧
    exUA.browser = "Chrome" := by
  have h1 : (login_post idCipher exBypassState false (some "2.2.2.2")
      (some exUser) (some "cookie-1") exUA 50 "123456" 7 "atk" "rtk").1 =
      .TRUSTED_BYPASS
        { user_id := 1, email := "user@example.com", username := "user",
          avatar := none, access_token := "atk", refresh_token := "rtk",
          otp_required := some false, trusted_device_id := none } := by decide
  refine ⟨h1, ?_, by decide, rfl⟩
  intro resp h
  rw [h1] at h
  injection h with h2
  rw [← h2]
  decide

open TrustedDevice in
/-- C9 (amended): on a trusted-device hit the request is answered
TRUSTED_BYPASS with session credentials for the user, but the response does
not include the device identifier (`C9_counterexample`); the stored device is
renewed (expiry pushed 30 days from now) while its browser/OS/IP metadata
keeps its prior values — the in-memory assignments are not persisted, since
`renew()` saves only `expires_at` — and the user's last-login is updated. -/
theorem C9_bypass (cipher : Cipher) (st : AppState) (debug : Bool)
    (ip : Option String) (user : User) (did : String) (ua : UAInfo) (now : ℚ)
    (code : String) (jitter : ℕ) (atk rtk : String) (td : TrustedDevice)
    (hmw : (process_request st.sys debug ip now).1 = .PROCEED)
    (hch : user.has_changed_password = true)
    (hact : user.is_active = true)
    (hfind : st.trusted.find? (fun d =>
      d.userId = user.id ∧ d.device_id = did ∧ d.is_active = true) = some td)
    (hexp : td.is_expired now = false) :
    (login_post cipher st debug ip (some user) (some did) ua now code jitter
      atk rtk).1 =
      .TRUSTED_BYPASS
        { user_id := user.id, email := user.email, username := user.username,
          avatar := user.avatar, access_token := atk, refresh_token := rtk,
          otp_required := some false, trusted_device_id := none } ∧
    ({ td with expires_at := now + THIRTY_DAYS } : TrustedDevice) ∈
      (login_post cipher st debug ip (some user) (some did) ua now code jitter
        atk rtk).2.trusted ∧
    ∀ u ∈ st.users, u.id = user.id →
      ({ u with last_login := some now } : User) ∈
        (login_post cipher st debug ip (some user) (some did) ua now code
          jitter atk rtk).2.users := by
  rcases hp : process_request st.sys debug ip now with ⟨o, sys1⟩
  rw [hp] at hmw
  simp only at hmw
  subst hmw
  have htd := List.mem_of_find?_eq_some hfind
  have heq : login_post cipher st debug ip (some user) (some did) ua now code
      jitter atk rtk =
      (.TRUSTED_BYPASS
        { user_id := user.id, email := user.email, username := user.username,
          avatar := user.avatar, access_token := atk, refresh_token := rtk,
          otp_required := some false, trusted_device_id := none },
       { st with
         sys := sys1
         trusted := st.trusted.map (fun d =>
           if d.device_id = td.device_id then
             { d with expires_at := now + THIRTY_DAYS }
           else d)
         users := st.users.map (fun u =>
           if u.id = user.id then { u with last_login := some now }
           else u) }) := by
    simp only [login_post, hp, hch, hact, hfind, hexp]
    simp
  rw [heq]
  refine ⟨rfl, ?_, ?_⟩
  · have h := List.mem_map_of_mem (fun d =>
      if d.device_id = td.device_id then
        { d with expires_at := now + THIRTY_DAYS }
      else d) htd
    simpa using h
  · intro u hu hid
    have h := List.mem_map_of_mem (fun u =>
      if u.id = user.id then { u with last_login := some now } else u) hu
    simpa [hid] using h

/-- Witness for C9's amended theorem at the concrete bypass state. -/
theorem C9_witness :
    (login_post idCipher exBypassState false (some "2.2.2.2") (some exUser)
      (some "cookie-1") exUA 50 "123456" 7 "atk" "rtk").1 =
      .TRUSTED_BYPASS
        { user_id := 1, email := "user@example.com", username := "user",
          avatar := none, access_token := "atk", refresh_token := "rtk",
          otp_required := some false, trusted_device_id := none } ∧
    ({ exOldDevice with expires_at := 50 + THIRTY_DAYS } : TrustedDevice) ∈
      (login_post idCipher exBypassState false (some "2.2.2.2") (some exUser)
        (some "cookie-1") exUA 50 "123456" 7 "atk" "rtk").2.trusted ∧
    ({ exUser with last_login := some 50 } : User) ∈
      (login_post idCipher exBypassState false (some "2.2.2.2") (some exUser)
        (some "cookie-1") exUA 50 "123456" 7 "atk" "rtk").2.users := by
  have h := C9_bypass idCipher exBypassState false (some "2.2.2.2") exUser
    "cookie-1" exUA 50 "123456" 7 "atk" "rtk" exOldDevice rfl rfl rfl
    (by decide) rfl
  exact ⟨h.1, h.2.1, h.2.2 exUser (by simp [exBypassState]) rfl⟩

end Server
